import Mathlib

/-!
Shallow embedding of the remote dispatch subsystem of the eolic repository
(src/eolic/remote.py), together with theorems settling the specification
claims about it.

Python values flowing through the subsystem are modelled by a small value
type (`PyLeaf` / `PyValue`); machinery imported from the repository's
missing `model.py` (the pydantic target models, the `EventRemoteTargetType`
enum and the `EventDTO` envelope) is modelled from the spec and marked as
such in doc comments.
-/

namespace Eolic

/-- A flat Python value: `None`, a string, an integer, a boolean, or an
enum member (modelled with a string `value`, the canonical string form the
dispatchers coerce events to). -/
inductive PyLeaf where
  | pynone : PyLeaf
  | str : String → PyLeaf
  | int : Int → PyLeaf
  | bool : Bool → PyLeaf
  | enumv : String → String → PyLeaf
deriving DecidableEq, Repr

/-- A Python value as it appears in a target descriptor or an event's
argument list: a flat value, a list of flat values, or a string-keyed
mapping of flat values. -/
inductive PyValue where
  | leaf : PyLeaf → PyValue
  | list : List PyLeaf → PyValue
  | dict : List (String × PyLeaf) → PyValue
deriving DecidableEq, Repr

/-- `str(event)` followed by the `isinstance(event, Enum)` override in the
dispatchers: an enum member contributes its `value`, a plain string is
itself, other values go through Python's `str`. -/
def eventValue : PyLeaf → String
  | .str s => s
  | .enumv _ v => v
  | .int n => toString n
  | .bool b => if b then "True" else "False"
  | .pynone => "None"

/-- Python truthiness of a `PyValue` (used by `_parse_target`'s
`if target.get("queue_name"):` checks). -/
def pyTruthy : PyValue → Bool
  | .leaf .pynone => false
  | .leaf (.str s) => !(s == "")
  | .leaf (.int n) => !(n == 0)
  | .leaf (.bool b) => b
  | .leaf (.enumv _ _) => true
  | .list xs => !xs.isEmpty
  | .dict xs => !xs.isEmpty

/-- `dict.get(k)`: the value at key `k`, if present. Descriptor dictionaries
are modelled as association lists without duplicate keys. -/
def getField (fields : List (String × PyValue)) (k : String) : Option PyValue :=
  (fields.find? (fun p => p.1 == k)).map (·.2)

/-- The raw registration input: a bare string, a structured descriptor, or
any other Python value (carried as a printable type name only). -/
inductive RawTarget where
  | str : String → RawTarget
  | dict : List (String × PyValue) → RawTarget
  | other : String → RawTarget
deriving DecidableEq, Repr

/-- The error taxonomy of the spec, abstracting the concrete Python
exceptions of `remote.py`: `invalidTarget` covers the `TypeError`s,
`KeyError` and model validation errors raised by `_parse_target`,
`unsupportedTarget` the factory's `NotImplementedError`,
`integrationUnavailable` the celery-missing `Exception`, and
`transportError` failures of the actual send. -/
inductive RemoteError where
  | invalidTarget : String → RemoteError
  | unsupportedTarget : String → RemoteError
  | integrationUnavailable : String → RemoteError
  | transportError : String → RemoteError
deriving DecidableEq, Repr

/-- Modelled from the spec: `model.py` is not under `src/`. The recognized
transport kinds are exactly the two transports the spec describes: the HTTP
webhook kind (`url`) and the task-queue kind (`celery`), the two member
names `remote.py` itself references. -/
inductive EventRemoteTargetType where
  | url : EventRemoteTargetType
  | celery : EventRemoteTargetType
deriving DecidableEq, Repr

/-- `EventRemoteTargetType[target_type]`, the lookup of an enum member by
name; `none` models the `KeyError` Python raises for a non-member name. -/
def kindOfName : String → Option EventRemoteTargetType
  | "url" => some .url
  | "celery" => some .celery
  | _ => none

/-- Modelled from the spec: `model.py` is not under `src/`. HTTP-kind
target: required string `address`, `headers` mapping defaulting to empty,
optional `events` filter. -/
structure EventRemoteURLTarget where
  address : String
  headers : List (String × PyLeaf)
  events : Option (List PyLeaf)
deriving DecidableEq, Repr

/-- Modelled from the spec: `model.py` is not under `src/`. Queue-kind
target: required string `address` (broker connection string), optional
`events` filter, `queue_name` and `function_name` falling back to
transport defaults when absent. -/
structure EventRemoteCeleryTarget where
  address : String
  events : Option (List PyLeaf)
  queue_name : String
  function_name : String
deriving DecidableEq, Repr

/-- Modelled from the spec: the transport default destination queue used
when a queue-kind descriptor carries no (truthy) `queue_name`. The concrete
string stands for the unknown default declared in the missing `model.py`. -/
def celeryDefaultQueueName : String := "eolic"

/-- Modelled from the spec: the transport default task identifier used when
a queue-kind descriptor carries no (truthy) `function_name`. The concrete
string stands for the unknown default declared in the missing `model.py`. -/
def celeryDefaultFunctionName : String := "event_listener"

/-- A parsed remote target: the URL shape, the celery shape, or the
parser's generic base-class fall-through `EventRemoteTarget(**target)`
(kept for the factory's contract; under the modelled two-member kind enum
the parser never produces it). -/
inductive EventRemoteTarget where
  | urlT : EventRemoteURLTarget → EventRemoteTarget
  | celeryT : EventRemoteCeleryTarget → EventRemoteTarget
  | generic : Option (List PyLeaf) → List (String × PyValue) → EventRemoteTarget
deriving DecidableEq, Repr

/-- The `events` attribute shared by all target shapes. -/
def EventRemoteTarget.events : EventRemoteTarget → Option (List PyLeaf)
  | .urlT t => t.events
  | .celeryT t => t.events
  | .generic es _ => es

/-- Whether a target is the generic base-class shape. -/
def EventRemoteTarget.isGeneric : EventRemoteTarget → Bool
  | .generic _ _ => true
  | _ => false

/-- The `events` field of a descriptor: absent or `None` means no filter,
a list is the filter; model validation rejects other shapes.  -/
def parseEvents : Option PyValue → Except RemoteError (Option (List PyLeaf))
  | Option.none => .ok Option.none
  | some (.leaf .pynone) => .ok Option.none
  | some (.list xs) => .ok (some xs)
  | some _ => .error (.invalidTarget "events must be a list of event names")

/-- `target.get("headers", {})` followed by model validation: absent means
empty mapping, a mapping is itself, anything else is rejected. -/
def parseHeaders : Option PyValue → Except RemoteError (List (String × PyLeaf))
  | Option.none => .ok []
  | some (.dict hs) => .ok hs
  | some _ => .error (.invalidTarget "headers must be a mapping")

/-- An optional string field with a Python-truthiness guard: the
`if target.get(k):` pattern of the celery branch; falsy or absent values
fall back to the default, truthy non-strings fail model validation. -/
def parseOptStr (fields : List (String × PyValue)) (k : String) (dflt : String) :
    Except RemoteError String :=
  match getField fields k with
  | Option.none => .ok dflt
  | some v =>
    if pyTruthy v then
      match v with
      | .leaf (.str s) => .ok s
      | _ => .error (.invalidTarget (k ++ " must be a string"))
    else .ok dflt

/-- The `EventRemoteTargetType.url` branch of `_parse_target`:
`target["address"]` (a `KeyError` when absent), headers defaulting to the
empty mapping, optional events. -/
def parseURLTarget (fields : List (String × PyValue)) :
    Except RemoteError EventRemoteTarget :=
  match getField fields "address" with
  | Option.none => .error (.invalidTarget "address")
  | some (.leaf (.str a)) =>
    match parseHeaders (getField fields "headers") with
    | .error e => .error e
    | .ok hs =>
      match parseEvents (getField fields "events") with
      | .error e => .error e
      | .ok es => .ok (.urlT { address := a, headers := hs, events := es })
  | some _ => .error (.invalidTarget "address must be a string")

/-- The `EventRemoteTargetType.celery` branch of `_parse_target`:
`target.get("address")` fed to the required-string `address` field of the
model (so absence or a non-string fails validation), optional events, and
the truthiness-guarded `queue_name` / `function_name` defaults. -/
def parseCeleryTarget (fields : List (String × PyValue)) :
    Except RemoteError EventRemoteTarget :=
  match getField fields "address" with
  | some (.leaf (.str a)) =>
    match parseEvents (getField fields "events") with
    | .error e => .error e
    | .ok es =>
      match parseOptStr fields "queue_name" celeryDefaultQueueName with
      | .error e => .error e
      | .ok qn =>
        match parseOptStr fields "function_name" celeryDefaultFunctionName with
        | .error e => .error e
        | .ok fn =>
          .ok (.celeryT { address := a, events := es, queue_name := qn, function_name := fn })
  | _ => .error (.invalidTarget "address is required")

/-- The descriptor part of `_parse_target`: the `type` field must be a
string (`TypeError` otherwise), is looked up in `EventRemoteTargetType`
(`KeyError`, carrying the unknown name, for a non-member), and the resolved
member selects the construction branch.  The source's final
`return EventRemoteTarget(**target)` fall-through is reached only for enum
members with no dedicated branch; under the modelled two-member enum both
members have one, so the match below is exhaustive without it. -/
def parseDict (fields : List (String × PyValue)) :
    Except RemoteError EventRemoteTarget :=
  match getField fields "type" with
  | some (.leaf (.str s)) =>
    match kindOfName s with
    | some .url => parseURLTarget fields
    | some .celery => parseCeleryTarget fields
    | Option.none => .error (.invalidTarget s)
  | _ => .error (.invalidTarget "Target type needs to be of type str")

/-- `EventRemoteTargetHandler._parse_target`: a bare string becomes the
descriptor `{"type": "url", "address": s}`; a non-string non-dict input is
a `TypeError`; a descriptor goes through `parseDict`. -/
def parseTarget : RawTarget → Except RemoteError EventRemoteTarget
  | .str s => parseDict [("type", .leaf (.str "url")), ("address", .leaf (.str s))]
  | .dict fields => parseDict fields
  | .other tyname =>
    .error (.invalidTarget
      ("Target needs to be of type str or Dict[str, str] but received " ++ tyname))

/-- Modelled from the spec: `model.py` is not under `src/`. The `EventDTO`
wire envelope serialized (`model_dump`) as the HTTP request body:
`{"event": <string>, "args": <ordered list>, "kwargs": <mapping>}`. -/
structure EventDTO where
  event : String
  args : List PyValue
  kwargs : List (String × PyValue)
deriving DecidableEq, Repr

/-- One `requests.post` call as issued by the URL dispatcher: destination
url, JSON body, header set, and timeout. -/
structure HttpPost where
  url : String
  json : EventDTO
  headers : List (String × PyLeaf)
  timeout : Nat
deriving DecidableEq, Repr

/-- One `celery.send_task` call as issued by the celery dispatcher: task
name (first positional argument), positional arguments, keyword arguments,
and destination queue. -/
structure CeleryTaskCall where
  task_name : String
  args : List PyValue
  kwargs : List (String × PyValue)
  queue : String
deriving DecidableEq, Repr

/-- `EventRemoteURLDispatcher._build_request`: coerce the event to its
canonical string form and wrap event, args and kwargs in an `EventDTO`. -/
def EventRemoteURLDispatcher.buildRequest (event : PyLeaf) (args : List PyValue)
    (kwargs : List (String × PyValue)) : EventDTO :=
  { event := eventValue event, args := args, kwargs := kwargs }

/-- `EventRemoteURLDispatcher.dispatch`: POST the built envelope to the
target's address with the target's headers and a timeout of 10. -/
def EventRemoteURLDispatcher.dispatch (target : EventRemoteURLTarget) (event : PyLeaf)
    (args : List PyValue) (kwargs : List (String × PyValue)) : HttpPost :=
  { url := target.address
    json := EventRemoteURLDispatcher.buildRequest event args kwargs
    headers := target.headers
    timeout := 10 }

/-- `EventRemoteCeleryDispatcher.dispatch`: `send_task` with the target's
function name, the canonical event value prepended to the positional
arguments, the keyword arguments unchanged, and the target's queue. -/
def EventRemoteCeleryDispatcher.dispatch (target : EventRemoteCeleryTarget) (event : PyLeaf)
    (args : List PyValue) (kwargs : List (String × PyValue)) : CeleryTaskCall :=
  { task_name := target.function_name
    args := .leaf (.str (eventValue event)) :: args
    kwargs := kwargs
    queue := target.queue_name }

/-- A constructed dispatcher, holding its target (`self.target`). -/
inductive EventRemoteDispatcher where
  | urlD : EventRemoteURLTarget → EventRemoteDispatcher
  | celeryD : EventRemoteCeleryTarget → EventRemoteDispatcher
deriving DecidableEq, Repr

/-- The target a dispatcher was constructed for. -/
def EventRemoteDispatcher.targetOf : EventRemoteDispatcher → EventRemoteTarget
  | .urlD t => .urlT t
  | .celeryD t => .celeryT t

/-- `EventRemoteDispatcherFactory.create`, with the
`EventRemoteCeleryDispatcher.__init__` availability check folded in (the
factory calls the constructor, which raises when the celery module is not
installed); targets of neither shape raise `NotImplementedError`. -/
def EventRemoteDispatcherFactory.create (celeryInstalled : Bool) :
    EventRemoteTarget → Except RemoteError EventRemoteDispatcher
  | .urlT t => .ok (.urlD t)
  | .celeryT t =>
    if celeryInstalled then .ok (.celeryD t)
    else .error (.integrationUnavailable "Celery Integration is not installed.")
  | .generic _ _ => .error (.unsupportedTarget "EventRemoteDispatcher not implemented")

/-- The transport call a dispatch performs, by transport. -/
inductive DispatchCall where
  | http : HttpPost → DispatchCall
  | celery : CeleryTaskCall → DispatchCall
deriving DecidableEq, Repr

/-- The call `dispatcher.dispatch(event, *args, **kwargs)` performs. -/
def dispatchCallOf (d : EventRemoteDispatcher) (event : PyLeaf) (args : List PyValue)
    (kwargs : List (String × PyValue)) : DispatchCall :=
  match d with
  | .urlD t => .http (EventRemoteURLDispatcher.dispatch t event args kwargs)
  | .celeryD t => .celery (EventRemoteCeleryDispatcher.dispatch t event args kwargs)

/-- The runtime environment a handler runs against: whether the celery
module is installed, and the transport outcome of each call (`none` for
success, `some e` for the exception the worker thread records). -/
structure Env where
  celeryInstalled : Bool
  httpOutcome : HttpPost → Option RemoteError
  celeryOutcome : CeleryTaskCall → Option RemoteError

/-- The outcome the environment assigns to a transport call. -/
def dispatchOutcome (env : Env) : DispatchCall → Option RemoteError
  | .http r => env.httpOutcome r
  | .celery c => env.celeryOutcome c

/-- A `Future` as retained in `self.futures`: the target the dispatch
serves (recoverable from the submitted dispatcher), the transport call it
performs, and the outcome `future.result()` will deliver (`none` when it
returns, `some e` when it re-raises `e`). -/
structure DispatchFuture where
  target : EventRemoteTarget
  call : DispatchCall
  outcome : Option RemoteError
deriving DecidableEq, Repr

/-- The `target.events is None or event in target.events` filter of
`emit`, with Python `in` membership. -/
def eventMatches (events : Option (List PyLeaf)) (event : PyLeaf) : Bool :=
  match events with
  | Option.none => true
  | some es => es.any (fun x => decide (x = event))

/-- The class-level state of `EventRemoteTargetHandler`: the class body
initializes `targets = []` once, and `self.targets.append` / `.clear`
mutate that single list in place, so it is shared by every instance. -/
structure HandlerClassState where
  targets : List EventRemoteTarget
deriving DecidableEq, Repr

/-- The per-instance state: `__init__` rebinds `self.futures` to a fresh
list (making futures instance-private), but never rebinds `self.targets`. -/
structure HandlerInstanceState where
  futures : List DispatchFuture
deriving DecidableEq, Repr

/-- The class attribute `targets: List[EventRemoteTarget] = []` at class
creation time. -/
def handlerClassInit : HandlerClassState := { targets := [] }

/-- `EventRemoteTargetHandler.__init__`: a fresh instance; only
`self.futures` is (re-)initialized, the registry is untouched. -/
def handlerInit : HandlerInstanceState := { futures := [] }

/-- `EventRemoteTargetHandler.register`: parse the raw target and append
it to the (class-level) registry; a parse failure is raised synchronously
(returned as `some e`) and the registry is left unchanged. -/
def EventRemoteTargetHandler.register (cs : HandlerClassState) (raw : RawTarget) :
    HandlerClassState × Option RemoteError :=
  match parseTarget raw with
  | .ok t => ({ targets := cs.targets ++ [t] }, Option.none)
  | .error e => (cs, some e)

/-- `EventRemoteTargetHandler.clear`: empty the (class-level) registry and
this instance's futures. -/
def EventRemoteTargetHandler.clear (_cs : HandlerClassState) (_inst : HandlerInstanceState) :
    HandlerClassState × HandlerInstanceState :=
  ({ targets := [] }, { futures := [] })

/-- The loop body of `emit` over the registry: for each target passing the
event filter, create a dispatcher (an exception here propagates out of
`emit`, keeping the futures appended so far) and submit its dispatch,
retaining the future. Returns the futures appended and the exception
`emit` raises, if any. -/
def emitLoop (env : Env) (event : PyLeaf) (args : List PyValue)
    (kwargs : List (String × PyValue)) :
    List EventRemoteTarget → List DispatchFuture × Option RemoteError
  | [] => ([], Option.none)
  | t :: ts =>
    if eventMatches t.events event then
      match EventRemoteDispatcherFactory.create env.celeryInstalled t with
      | .error e => ([], some e)
      | .ok d =>
        (({ target := d.targetOf
            call := dispatchCallOf d event args kwargs
            outcome := dispatchOutcome env (dispatchCallOf d event args kwargs) } : DispatchFuture)
            :: (emitLoop env event args kwargs ts).1,
          (emitLoop env event args kwargs ts).2)
    else emitLoop env event args kwargs ts

/-- `EventRemoteTargetHandler.emit`: run the loop over the registry,
appending the produced futures to this instance's futures; the second
component is the exception `emit` raises synchronously, if any. -/
def EventRemoteTargetHandler.emit (env : Env) (cs : HandlerClassState)
    (inst : HandlerInstanceState) (event : PyLeaf) (args : List PyValue)
    (kwargs : List (String × PyValue)) : HandlerInstanceState × Option RemoteError :=
  let r := emitLoop env event args kwargs cs.targets
  ({ futures := inst.futures ++ r.1 }, r.2)

/-- The first error delivered by `for future in self.futures:
future.result()`, in list order. -/
def firstError : List DispatchFuture → Option RemoteError
  | [] => Option.none
  | f :: fs =>
    match f.outcome with
    | some e => some e
    | Option.none => firstError fs

/-- `EventRemoteTargetHandler.wait_for_all`: await each future in order;
the first error re-raises out of the loop, leaving `self.futures`
untouched (the trailing `self.futures.clear()` is only reached when every
future succeeded). -/
def EventRemoteTargetHandler.wait_for_all (inst : HandlerInstanceState) :
    HandlerInstanceState × Option RemoteError :=
  match firstError inst.futures with
  | some e => (inst, some e)
  | Option.none => ({ futures := [] }, Option.none)

/-- Whether an error arises at dispatcher-creation time (no dispatcher for
the kind, or the task-queue integration missing). -/
def RemoteError.isDispatchCreationError : RemoteError → Bool
  | .unsupportedTarget _ => true
  | .integrationUnavailable _ => true
  | _ => false

/-- Whether the factory can create a dispatcher for a target. -/
def createOk (celeryInstalled : Bool) (t : EventRemoteTarget) : Bool :=
  match EventRemoteDispatcherFactory.create celeryInstalled t with
  | .ok _ => true
  | .error _ => false

/-- The number of occurrences of a target in a registry. -/
def countTarget (t : EventRemoteTarget) (ts : List EventRemoteTarget) : Nat :=
  ts.countP (fun u => decide (u = t))

/-- The number of futures retained for a given target. -/
def countFuturesFor (t : EventRemoteTarget) (fs : List DispatchFuture) : Nat :=
  fs.countP (fun f => decide (f.target = t))

/-- Whether a parse result is the synchronous `InvalidTargetError` of the
spec's taxonomy (and no target was produced). -/
def isInvalidTargetError : Except RemoteError EventRemoteTarget → Bool
  | .error (.invalidTarget _) => true
  | _ => false

/-- Whether an option holds a string value (the `isinstance(x, str)`
check). -/
def isStrField : Option PyValue → Bool
  | some (.leaf (.str _)) => true
  | _ => false

/-- An environment with the celery integration installed and every
transport call succeeding. -/
def envAllOk : Env :=
  { celeryInstalled := true
    httpOutcome := fun _ => Option.none
    celeryOutcome := fun _ => Option.none }

/-- An environment without the celery integration, every transport call
succeeding. -/
def envNoCelery : Env :=
  { celeryInstalled := false
    httpOutcome := fun _ => Option.none
    celeryOutcome := fun _ => Option.none }

/-- A concrete URL target used in witnesses and counterexamples. -/
def urlTargetA : EventRemoteURLTarget :=
  { address := "http://a.test", headers := [], events := Option.none }

/-- A concrete filtered URL target used in witnesses. -/
def urlTargetB : EventRemoteURLTarget :=
  { address := "http://b.test", headers := [], events := some [.str "order.created"] }

/-- A concrete celery target used in counterexamples. -/
def celeryTargetEx : EventRemoteCeleryTarget :=
  { address := "amqp://broker.test", events := Option.none
    queue_name := celeryDefaultQueueName, function_name := celeryDefaultFunctionName }

/-- A concrete retained future whose dispatch failed with a transport
error. -/
def failedFutureEx : DispatchFuture :=
  { target := .urlT urlTargetA
    call := .http (EventRemoteURLDispatcher.dispatch urlTargetA (.str "order.created") [] [])
    outcome := some (.transportError "connection refused") }

/- ------------------------------------------------------------------ -/
/- Helper lemmas                                                      -/
/- ------------------------------------------------------------------ -/

/-- A successful `parseURLTarget` never produces the generic shape. -/
theorem parseURLTarget_shape (fields : List (String × PyValue)) (t : EventRemoteTarget)
    (h : parseURLTarget fields = .ok t) : t.isGeneric = false := by
  unfold parseURLTarget at h
  repeat' split at h
  all_goals first
    | exact (Except.noConfusion h)
    | (injection h with h2; subst h2; rfl)

/-- A successful `parseCeleryTarget` never produces the generic shape. -/
theorem parseCeleryTarget_shape (fields : List (String × PyValue)) (t : EventRemoteTarget)
    (h : parseCeleryTarget fields = .ok t) : t.isGeneric = false := by
  unfold parseCeleryTarget at h
  repeat' split at h
  all_goals first
    | exact (Except.noConfusion h)
    | (injection h with h2; subst h2; rfl)

/-- A successful `parseDict` never produces the generic shape. -/
theorem parseDict_shape (fields : List (String × PyValue)) (t : EventRemoteTarget)
    (h : parseDict fields = .ok t) : t.isGeneric = false := by
  unfold parseDict at h
  repeat' split at h
  all_goals first
    | exact (Except.noConfusion h)
    | exact parseURLTarget_shape fields t h
    | exact parseCeleryTarget_shape fields t h

/-- Every error the factory can raise is a dispatch-creation error. -/
theorem create_error_shape (c : Bool) (t : EventRemoteTarget) (e : RemoteError)
    (h : EventRemoteDispatcherFactory.create c t = .error e) :
    e.isDispatchCreationError = true := by
  cases t with
  | urlT x => exact (Except.noConfusion h)
  | celeryT x =>
    simp only [EventRemoteDispatcherFactory.create] at h
    split at h
    · exact (Except.noConfusion h)
    · injection h with h2; subst h2; rfl
  | generic es fs =>
    injection h with h2; subst h2; rfl

/-- Every exception `emit`'s loop raises synchronously is a
dispatch-creation error. -/
theorem emitLoop_error_shape (env : Env) (event : PyLeaf) (args : List PyValue)
    (kwargs : List (String × PyValue)) :
    ∀ (ts : List EventRemoteTarget) (e : RemoteError),
      (emitLoop env event args kwargs ts).2 = some e → e.isDispatchCreationError = true := by
  intro ts
  induction ts with
  | nil => intro e h; exact (Option.noConfusion h)
  | cons t ts ih =>
    intro e h
    unfold emitLoop at h
    split at h
    · split at h
      · rename_i e2 heq
        injection h with h2
        subst h2
        exact create_error_shape env.celeryInstalled t e2 heq
      · exact ih e h
    · exact ih e h

/-- When every registered target has a dispatcher, `emit`'s loop raises
nothing. -/
theorem emitLoop_ok_of_createOk (env : Env) (event : PyLeaf) (args : List PyValue)
    (kwargs : List (String × PyValue)) :
    ∀ ts : List EventRemoteTarget, (∀ u ∈ ts, createOk env.celeryInstalled u = true) →
      (emitLoop env event args kwargs ts).2 = Option.none := by
  intro ts
  induction ts with
  | nil => intro _; rfl
  | cons t ts ih =>
    intro h
    have ht : createOk env.celeryInstalled t = true := h t (by simp)
    have hts : ∀ u ∈ ts, createOk env.celeryInstalled u = true :=
      fun u hu => h u (by simp [hu])
    unfold emitLoop
    split
    · cases hcrt : EventRemoteDispatcherFactory.create env.celeryInstalled t with
      | error e => simp [createOk, hcrt] at ht
      | ok d => simp only [hcrt]; exact ih hts
    · exact ih hts

/-- A non-generic target has a dispatcher whenever the celery integration
is installed, and that dispatcher is constructed for the target itself. -/
theorem create_of_not_generic (c : Bool) (hc : c = true) (u : EventRemoteTarget)
    (hu : u.isGeneric = false) :
    ∃ d, EventRemoteDispatcherFactory.create c u = .ok d ∧ d.targetOf = u := by
  cases u with
  | urlT x => exact ⟨.urlD x, rfl, rfl⟩
  | celeryT x =>
    subst hc
    exact ⟨.celeryD x, rfl, rfl⟩
  | generic es fs => simp [EventRemoteTarget.isGeneric] at hu

/-- `event in target.events` agrees with list membership. -/
theorem eventMatches_some_iff (es : List PyLeaf) (e : PyLeaf) :
    eventMatches (some es) e = true ↔ e ∈ es := by
  simp [eventMatches, List.any_eq_true]

/-- Counting the futures `emit`'s loop retains for one target: one per
occurrence of the target in the registry when the event passes its filter,
none otherwise (when every registered target is creatable). -/
theorem emitLoop_count (env : Env) (hc : env.celeryInstalled = true)
    (event : PyLeaf) (args : List PyValue) (kwargs : List (String × PyValue))
    (t : EventRemoteTarget) :
    ∀ ts : List EventRemoteTarget, (∀ u ∈ ts, u.isGeneric = false) →
      countFuturesFor t (emitLoop env event args kwargs ts).1
        = if eventMatches t.events event then countTarget t ts else 0 := by
  intro ts
  induction ts with
  | nil =>
    intro _
    simp [countFuturesFor, countTarget, emitLoop]
  | cons u us ih =>
    intro h
    have hu : u.isGeneric = false := h u (by simp)
    have hus : ∀ v ∈ us, v.isGeneric = false := fun v hv => h v (by simp [hv])
    obtain ⟨d, hd, hdt⟩ := create_of_not_generic env.celeryInstalled hc u hu
    unfold emitLoop
    by_cases hm : eventMatches u.events event
    · rw [if_pos hm, hd]
      simp only [countFuturesFor, List.countP_cons, hdt]
      by_cases hut : u = t
      · subst hut
        rw [if_pos hm]
        have := ih hus
        rw [if_pos hm] at this
        simp [countFuturesFor] at this
        simp [this, countTarget, List.countP_cons]
        try omega
      · have := ih hus
        simp only [countFuturesFor] at this
        rw [this]
        simp only [countTarget, List.countP_cons]
        by_cases hmt : eventMatches t.events event
        · rw [if_pos hmt, if_pos hmt]
          try simp [hut]
        · rw [if_neg hmt, if_neg hmt]
          try simp [hut]
    · rw [if_neg hm]
      have := ih hus
      rw [this]
      by_cases hmt : eventMatches t.events event
      · rw [if_pos hmt, if_pos hmt]
        have hut : u ≠ t := by
          intro hcontra
          subst hcontra
          exact hm hmt
        simp [countTarget, List.countP_cons, hut]
      · rw [if_neg hmt, if_neg hmt]

/- ------------------------------------------------------------------ -/
/- Claim theorems                                                     -/
/- ------------------------------------------------------------------ -/

/-- C8: for every string `s`, registering `s` is equivalent to registering
the structured descriptor `{"type": "url", "address": s}` (the code-level
form of the spec's `{"kind": "http-webhook", "address": s}`): both parse
to the same HTTP-kind target whose address is `s`, with empty headers and
no event filter, and `register` treats the two inputs identically. -/
theorem c8_string_shorthand (s : String) (cs : HandlerClassState) :
    parseTarget (.str s)
        = parseTarget (.dict [("type", .leaf (.str "url")), ("address", .leaf (.str s))]) ∧
    parseTarget (.str s)
        = .ok (.urlT { address := s, headers := [], events := Option.none }) ∧
    EventRemoteTargetHandler.register cs (.str s)
        = EventRemoteTargetHandler.register cs
            (.dict [("type", .leaf (.str "url")), ("address", .leaf (.str s))]) :=
  ⟨rfl, rfl, rfl⟩

/-- C9: one HTTP dispatch issues exactly one POST to the target's
configured address, with the target's configured headers, a timeout of 10,
and body `{"event": canonical string form, "args": positional args in
order, "kwargs": keyword mapping}`; an enumerated event is coerced to its
canonical string value. -/
theorem c9_http_wire_payload (t : EventRemoteURLTarget) (event : PyLeaf)
    (args : List PyValue) (kwargs : List (String × PyValue)) :
    EventRemoteURLDispatcher.dispatch t event args kwargs
        = { url := t.address
            json := { event := eventValue event, args := args, kwargs := kwargs }
            headers := t.headers
            timeout := 10 } ∧
    (∀ n v : String, eventValue (.enumv n v) = v) :=
  ⟨rfl, fun _ _ => rfl⟩

/-- C10: one task-queue dispatch submits a task named by the target's
configured function identifier to the target's configured queue, with the
event's canonical string value prepended to the positional arguments and
the keyword arguments unchanged; a queue-kind descriptor without
`queue_name` / `function_name` gets the transport defaults, and configured
values are used when present. -/
theorem c10_celery_call_convention :
    (∀ (t : EventRemoteCeleryTarget) (event : PyLeaf) (args : List PyValue)
        (kwargs : List (String × PyValue)),
      EventRemoteCeleryDispatcher.dispatch t event args kwargs
          = { task_name := t.function_name
              args := .leaf (.str (eventValue event)) :: args
              kwargs := kwargs
              queue := t.queue_name }) ∧
    (∀ a : String,
      parseTarget (.dict [("type", .leaf (.str "celery")), ("address", .leaf (.str a))])
          = .ok (.celeryT { address := a, events := Option.none
                            queue_name := celeryDefaultQueueName
                            function_name := celeryDefaultFunctionName })) ∧
    parseTarget (.dict [("type", .leaf (.str "celery")), ("address", .leaf (.str "amqp://b")),
          ("queue_name", .leaf (.str "orders")), ("function_name", .leaf (.str "handle_event"))])
        = .ok (.celeryT { address := "amqp://b", events := Option.none
                          queue_name := "orders", function_name := "handle_event" }) :=
  ⟨fun _ _ _ _ => rfl, fun _ => rfl, rfl⟩

/-- C5: a descriptor whose `type` field is a string naming no recognized
transport kind is rejected synchronously by `register` with the spec's
`InvalidTargetError` (the `KeyError` of the enum lookup), before any
`emit`, leaving the registry unchanged. -/
theorem c5_unknown_kind_rejected (fields : List (String × PyValue)) (s : String)
    (cs : HandlerClassState)
    (h1 : getField fields "type" = some (.leaf (.str s)))
    (h2 : kindOfName s = Option.none) :
    EventRemoteTargetHandler.register cs (.dict fields)
        = (cs, some (.invalidTarget s)) := by
  simp only [EventRemoteTargetHandler.register, parseTarget, parseDict, h1, h2]

/-- Witness for C5 at the concrete descriptor
`{"type": "unknown-kind", "address": "x"}`. -/
theorem c5_unknown_kind_rejected_witness :
    EventRemoteTargetHandler.register handlerClassInit
        (.dict [("type", .leaf (.str "unknown-kind")), ("address", .leaf (.str "x"))])
      = (handlerClassInit, some (.invalidTarget "unknown-kind")) :=
  c5_unknown_kind_rejected _ "unknown-kind" handlerClassInit rfl rfl

/-- C7: `parseTarget` fails with `InvalidTargetError` (and produces no
target) whenever the raw input is neither a string nor a mapping, whenever
the `type` field is missing or not a string, and whenever the required
`address` field for the resolved kind is absent (for both the HTTP and the
queue kind). -/
theorem c7_parse_failure_conditions :
    (∀ tyname : String, isInvalidTargetError (parseTarget (.other tyname)) = true) ∧
    (∀ fields : List (String × PyValue), isStrField (getField fields "type") = false →
      isInvalidTargetError (parseTarget (.dict fields)) = true) ∧
    (∀ fields : List (String × PyValue),
      getField fields "type" = some (.leaf (.str "url")) →
      getField fields "address" = Option.none →
      isInvalidTargetError (parseTarget (.dict fields)) = true) ∧
    (∀ fields : List (String × PyValue),
      getField fields "type" = some (.leaf (.str "celery")) →
      getField fields "address" = Option.none →
      isInvalidTargetError (parseTarget (.dict fields)) = true) := by
  refine ⟨fun tyname => rfl, ?_, ?_, ?_⟩
  · intro fields h
    simp only [parseTarget, parseDict]
    split
    · rename_i s heq
      rw [heq] at h
      simp [isStrField] at h
    · rfl
  · intro fields h1 h2
    simp only [parseTarget, parseDict, h1, kindOfName]
    simp only [parseURLTarget, h2]
    rfl
  · intro fields h1 h2
    simp only [parseTarget, parseDict, h1, kindOfName]
    simp only [parseCeleryTarget, h2]
    rfl

/-- Witness for C7 at four concrete malformed inputs: a non-string
non-dict value, a descriptor without `type`, a url descriptor without
`address`, and a celery descriptor without `address`. -/
theorem c7_parse_failure_conditions_witness :
    isInvalidTargetError (parseTarget (.other "int")) = true ∧
    isInvalidTargetError (parseTarget (.dict [("address", .leaf (.str "x"))])) = true ∧
    isInvalidTargetError (parseTarget (.dict [("type", .leaf (.str "url"))])) = true ∧
    isInvalidTargetError (parseTarget (.dict [("type", .leaf (.str "celery"))])) = true :=
  ⟨c7_parse_failure_conditions.1 "int",
   c7_parse_failure_conditions.2.1 _ rfl,
   c7_parse_failure_conditions.2.2.1 _ rfl rfl,
   c7_parse_failure_conditions.2.2.2 _ rfl rfl⟩

/-- C6 (amended): a descriptor whose kind names no recognized transport
kind is not passed through as a generic target — `parseTarget` never
produces the generic base-class shape: every successfully parsed target is
the HTTP or the queue shape (unrecognized kinds are rejected with
`InvalidTargetError` instead, see the counterexample). -/
theorem c6_parse_never_generic (raw : RawTarget) (t : EventRemoteTarget)
    (h : parseTarget raw = .ok t) : t.isGeneric = false := by
  cases raw with
  | str s =>
    simp only [parseTarget] at h
    exact parseDict_shape _ t h
  | dict fields =>
    simp only [parseTarget] at h
    exact parseDict_shape fields t h
  | other tyname =>
    simp only [parseTarget] at h
    exact (Except.noConfusion h)

/-- Witness for C6's amended theorem at the concrete shorthand input
`"http://a.test"`. -/
theorem c6_parse_never_generic_witness :
    EventRemoteTarget.isGeneric (.urlT urlTargetA) = false :=
  c6_parse_never_generic (.str "http://a.test") (.urlT urlTargetA) rfl

/-- Counterexample to C6 as stated: the descriptor
`{"type": "unknown-kind", "address": "x"}` does not match a recognized
transport kind, and `parseTarget` rejects it with `InvalidTargetError`
instead of returning a generic target built from its fields. -/
theorem c6_unknown_kind_counterexample :
    parseTarget (.dict [("type", .leaf (.str "unknown-kind")), ("address", .leaf (.str "x"))])
      = .error (.invalidTarget "unknown-kind") := rfl

/-- C2 (amended): `wait_for_all` awaits the retained handles in order;
when none failed it clears the retained-handle collection and returns,
when some handle failed it re-raises the first error encountered and
leaves the collection unchanged (the clear is never reached), and with
zero outstanding handles it returns immediately without error. -/
theorem c2_wait_for_all_amended (inst : HandlerInstanceState) :
    (firstError inst.futures = Option.none →
      EventRemoteTargetHandler.wait_for_all inst
        = ({ futures := [] }, Option.none)) ∧
    (∀ e : RemoteError, firstError inst.futures = some e →
      EventRemoteTargetHandler.wait_for_all inst = (inst, some e)) ∧
    (inst.futures = [] →
      EventRemoteTargetHandler.wait_for_all inst = (inst, Option.none)) := by
  refine ⟨?_, ?_, ?_⟩
  · intro h
    simp [EventRemoteTargetHandler.wait_for_all, h]
  · intro e h
    simp [EventRemoteTargetHandler.wait_for_all, h]
  · intro h
    cases inst with
    | mk futures =>
      subst h
      rfl

/-- Witness for C2's amended theorem: a handler with zero outstanding
handles returns immediately without error, collection left empty. -/
theorem c2_wait_for_all_amended_witness :
    EventRemoteTargetHandler.wait_for_all { futures := [] }
      = ({ futures := [] }, Option.none) :=
  (c2_wait_for_all_amended { futures := [] }).2.2 rfl

/-- Counterexample to C2 as stated: with one retained handle that failed
with a transport error, `wait_for_all` re-raises the error but does NOT
leave the retained-handle collection empty — the exception propagates
before the clear. -/
theorem c2_wait_for_all_counterexample :
    EventRemoteTargetHandler.wait_for_all { futures := [failedFutureEx] }
        = ({ futures := [failedFutureEx] }, some (.transportError "connection refused")) ∧
    ({ futures := [failedFutureEx] } : HandlerInstanceState).futures ≠ [] :=
  ⟨rfl, by decide⟩

/-- C3 (the code's behavior at the claim's failing input): the registry is
class-level state shared by every handler instance — after registering
`"http://a.test"` through one instance, the registry a newly constructed
second instance reads (construction re-initializes only `futures`) already
contains that target, and `clear` called through any instance empties the
shared registry for all of them. -/
theorem c3_shared_class_registry :
    (EventRemoteTargetHandler.register handlerClassInit (.str "http://a.test")).1.targets
        = [.urlT urlTargetA] ∧
    handlerInit.futures = [] ∧
    (EventRemoteTargetHandler.register handlerClassInit (.str "http://a.test")).1.targets
        ≠ [] ∧
    (EventRemoteTargetHandler.clear
        (EventRemoteTargetHandler.register handlerClassInit (.str "http://a.test")).1
        handlerInit).1.targets = [] :=
  ⟨rfl, rfl, by decide, rfl⟩

/-- C1 (amended): every exception `emit` raises synchronously is a
dispatch-creation error (`UnsupportedTargetError` or
`IntegrationUnavailableError`) raised in the emitting thread at the point
the dispatcher is created; when every registered target has a dispatcher,
`emit` raises nothing regardless of transport outcomes — transport errors
are only recorded on the retained handles. -/
theorem c1_emit_creation_errors_synchronous :
    (∀ (env : Env) (cs : HandlerClassState) (inst : HandlerInstanceState)
        (event : PyLeaf) (args : List PyValue) (kwargs : List (String × PyValue))
        (e : RemoteError),
      (EventRemoteTargetHandler.emit env cs inst event args kwargs).2 = some e →
      e.isDispatchCreationError = true) ∧
    (∀ (env : Env) (cs : HandlerClassState) (inst : HandlerInstanceState)
        (event : PyLeaf) (args : List PyValue) (kwargs : List (String × PyValue)),
      (∀ t ∈ cs.targets, createOk env.celeryInstalled t = true) →
      (EventRemoteTargetHandler.emit env cs inst event args kwargs).2 = Option.none) := by
  constructor
  · intro env cs inst event args kwargs e h
    exact emitLoop_error_shape env event args kwargs cs.targets e h
  · intro env cs inst event args kwargs h
    exact emitLoop_ok_of_createOk env event args kwargs cs.targets h

/-- Witness for C1's amended theorem: with one url target and all
transports failing, `emit` raises nothing; with a celery target and the
integration missing, the error `emit` raises is a dispatch-creation
error. -/
theorem c1_emit_creation_errors_synchronous_witness :
    (EventRemoteTargetHandler.emit
        { celeryInstalled := true
          httpOutcome := fun _ => some (.transportError "boom")
          celeryOutcome := fun _ => some (.transportError "boom") }
        { targets := [.urlT urlTargetA] } handlerInit (.str "order.created") [] []).2
      = Option.none ∧
    RemoteError.isDispatchCreationError
        (.integrationUnavailable "Celery Integration is not installed.") = true :=
  ⟨c1_emit_creation_errors_synchronous.2 _ _ handlerInit (.str "order.created") [] []
      (by decide),
   c1_emit_creation_errors_synchronous.1 envNoCelery { targets := [.celeryT celeryTargetEx] }
      handlerInit (.str "order.created") [] []
      (.integrationUnavailable "Celery Integration is not installed.") rfl⟩

/-- Counterexample to C1 as stated: with a registered queue-kind target
and the task-queue integration missing from the runtime, `emit` raises the
`IntegrationUnavailableError` synchronously (the dispatcher is created in
the emitting thread, not inside the pool worker), instead of deferring it
to `wait_for_all`. -/
theorem c1_emit_raises_counterexample :
    (EventRemoteTargetHandler.emit envNoCelery { targets := [.celeryT celeryTargetEx] }
        handlerInit (.str "order.created") [] []).2
      = some (.integrationUnavailable "Celery Integration is not installed.") := rfl

/-- C4: with the registry free of dispatch-creation problems (the celery
integration installed and no generic targets), one call to `emit` submits,
for a target registered exactly once: zero dispatches when the target's
events filter is present and does not contain the event, exactly one when
it does contain the event, and exactly one when the filter is absent; and
`emit` raises nothing. -/
theorem c4_event_filtering (env : Env) (hc : env.celeryInstalled = true)
    (targets : List EventRemoteTarget) (hng : ∀ u ∈ targets, u.isGeneric = false)
    (t : EventRemoteTarget) (hcount : countTarget t targets = 1)
    (event : PyLeaf) (args : List PyValue) (kwargs : List (String × PyValue)) :
    ((EventRemoteTargetHandler.emit env { targets := targets } handlerInit
        event args kwargs).2 = Option.none) ∧
    (∀ es : List PyLeaf, t.events = some es → event ∉ es →
      countFuturesFor t (EventRemoteTargetHandler.emit env { targets := targets }
        handlerInit event args kwargs).1.futures = 0) ∧
    (∀ es : List PyLeaf, t.events = some es → event ∈ es →
      countFuturesFor t (EventRemoteTargetHandler.emit env { targets := targets }
        handlerInit event args kwargs).1.futures = 1) ∧
    (t.events = Option.none →
      countFuturesFor t (EventRemoteTargetHandler.emit env { targets := targets }
        handlerInit event args kwargs).1.futures = 1) := by
  have hcreate : ∀ u ∈ targets, createOk env.celeryInstalled u = true := by
    intro u hu
    obtain ⟨d, hd, _⟩ := create_of_not_generic env.celeryInstalled hc u (hng u hu)
    simp [createOk, hd]
  have hfut : (EventRemoteTargetHandler.emit env { targets := targets } handlerInit
      event args kwargs).1.futures = (emitLoop env event args kwargs targets).1 := by
    simp [EventRemoteTargetHandler.emit, handlerInit]
  have hcnt := emitLoop_count env hc event args kwargs t targets hng
  refine ⟨?_, ?_, ?_, ?_⟩
  · exact emitLoop_ok_of_createOk env event args kwargs targets hcreate
  · intro es hes hmem
    rw [hfut, hcnt, hes]
    rw [if_neg]
    intro hmatch
    exact hmem ((eventMatches_some_iff es event).mp hmatch)
  · intro es hes hmem
    rw [hfut, hcnt, hes]
    rw [if_pos ((eventMatches_some_iff es event).mpr hmem)]
    exact hcount
  · intro hes
    rw [hfut, hcnt, hes]
    simp only [eventMatches, if_pos]
    exact hcount

/-- Witness for C4 at a concrete filtered target: registering
`http://b.test` with filter `{"order.created"}` once and emitting
`"order.created"` submits exactly one dispatch for it. -/
theorem c4_event_filtering_witness :
    countTarget (.urlT urlTargetB) [.urlT urlTargetB] = 1 ∧
    countFuturesFor (.urlT urlTargetB)
      (EventRemoteTargetHandler.emit envAllOk { targets := [.urlT urlTargetB] }
        handlerInit (.str "order.created") [] []).1.futures = 1 :=
  ⟨by decide,
   (c4_event_filtering envAllOk rfl [.urlT urlTargetB] (by decide) (.urlT urlTargetB)
      (by decide) (.str "order.created") [] []).2.2.1
      [.str "order.created"] rfl (by decide)⟩

end Eolic
